import Mathlib

/-!
Verification of the session-routing SSE/Redis transport layer
(`src/redis_transport.ts`).

The development shallowly embeds the two transport classes
(`SSESubscribeTransport`, `SSEPublishTransport`) and their shared base
(`SSERedisTransportBase`) as pure Lean state-transition functions that
return, alongside the successor state, the list of observable effects
(broker commands, outbound-stream writes, console logs) the corresponding
TypeScript method performs, in order.

Platform primitives used by the transport (the JavaScript JSON codec,
`encodeURI`, the `content-type` header parser, the MCP JSON-RPC message
schema) are modelled as executable Lean functions at their interfaces.
JSON numbers are modelled as integers (fraction and exponent syntax of
real JSON, and JS float formatting, are out of scope for every claim
considered here); the JSON text parser is fuel-bounded, with fuel
generous enough for any input whose nesting is bounded by its length.
-/

/-- Characters that are awkward as literals, defined by code point. -/
def lbraceChar : Char := Char.ofNat 123

/-- Closing-brace character, by code point. -/
def rbraceChar : Char := Char.ofNat 125

/-- Apostrophe character, by code point. -/
def aposChar : Char := Char.ofNat 39

/-- Double-quote character. -/
def quoteChar : Char := '"'

/-- Backslash character. -/
def backslashChar : Char := '\\'

/-- Opening-brace as a one-character string. -/
def lbraceStr : String := String.singleton lbraceChar

/-- Closing-brace as a one-character string. -/
def rbraceStr : String := String.singleton rbraceChar

/-- JSON document values, as produced by the JavaScript JSON codec.
Numbers are modelled as integers; object fields keep insertion order,
as JS objects do. -/
inductive Json where
  | null : Json
  | bool (b : Bool) : Json
  | num (n : Int) : Json
  | str (s : String) : Json
  | arr (elems : List Json) : Json
  | obj (fields : List (String × Json)) : Json

/-- Escape of a single character inside a JSON string literal, as
performed by JavaScript JSON.stringify: quote, backslash and control
characters are escaped, everything else is kept verbatim. -/
def escapeChar (c : Char) : String :=
  if c = quoteChar then String.mk [backslashChar, quoteChar]
  else if c = backslashChar then String.mk [backslashChar, backslashChar]
  else if c = '\n' then "\\n"
  else if c = '\t' then "\\t"
  else if c = '\r' then "\\r"
  else if c.toNat = 8 then "\\b"
  else if c.toNat = 12 then "\\f"
  else if c.toNat < 32 then
    "\\u00" ++ String.mk [(Nat.digitChar (c.toNat / 16)), (Nat.digitChar (c.toNat % 16))]
  else String.singleton c

/-- Escape of a whole string for inclusion in JSON text. -/
def escapeString (s : String) : String :=
  String.join (s.toList.map escapeChar)

mutual

/-- Model of JavaScript JSON.stringify (no indentation argument): the
compact serialization used on both the publish path (line 146) and the
subscribe callback (line 71). -/
def Json.stringify : Json → String
  | .null => "null"
  | .bool true => "true"
  | .bool false => "false"
  | .num n => toString n
  | .str s => "\"" ++ escapeString s ++ "\""
  | .arr xs => "[" ++ stringifyElems xs ++ "]"
  | .obj fs => lbraceStr ++ stringifyFields fs ++ rbraceStr

/-- Comma-separated serialization of array elements. -/
def stringifyElems : List Json → String
  | [] => ""
  | [x] => Json.stringify x
  | x :: y :: xs => Json.stringify x ++ "," ++ stringifyElems (y :: xs)

/-- Comma-separated serialization of object members. -/
def stringifyFields : List (String × Json) → String
  | [] => ""
  | [(k, v)] => "\"" ++ escapeString k ++ "\":" ++ Json.stringify v
  | (k, v) :: f :: fs =>
      "\"" ++ escapeString k ++ "\":" ++ Json.stringify v ++ "," ++ stringifyFields (f :: fs)

end

/-- Whitespace skipping for the JSON text parser. -/
def skipWs : List Char → List Char
  | c :: cs => if c = ' ' || c = '\t' || c = '\n' || c = '\r' then skipWs cs else c :: cs
  | [] => []

/-- Decimal digit test. -/
def isDigitChar (c : Char) : Bool := '0' ≤ c && c ≤ '9'

/-- Longest prefix of decimal digits, with the remainder. -/
def takeDigits : List Char → (List Char × List Char)
  | c :: cs =>
    if isDigitChar c then
      let (ds, r) := takeDigits cs
      (c :: ds, r)
    else ([], c :: cs)
  | [] => ([], [])

/-- Decimal value of a digit list (most significant first). -/
def digitsToNat (acc : Nat) : List Char → Nat
  | [] => acc
  | c :: cs => digitsToNat (acc * 10 + (c.toNat - 48)) cs

/-- Value of one hexadecimal digit, if any. -/
def hexVal (c : Char) : Option Nat :=
  if isDigitChar c then some (c.toNat - 48)
  else if 'a' ≤ c && c ≤ 'f' then some (c.toNat - 97 + 10)
  else if 'A' ≤ c && c ≤ 'F' then some (c.toNat - 65 + 10)
  else none

/-- Four hex digits, as used by JSON \u escapes. -/
def parseHex4 : List Char → Option (Nat × List Char)
  | a :: b :: c :: d :: rest => do
    let va ← hexVal a
    let vb ← hexVal b
    let vc ← hexVal c
    let vd ← hexVal d
    some (((va * 16 + vb) * 16 + vc) * 16 + vd, rest)
  | _ => none

/-- Literal prefix consumption. -/
def expectChars : List Char → List Char → Option (List Char)
  | [], cs => some cs
  | l :: ls, c :: cs => if c = l then expectChars ls cs else none
  | _ :: _, [] => none

/-- Body of a JSON string literal after the opening quote, with the
JSON escape sequences; rejects raw control characters as real JSON
does. Fuel-bounded. -/
def parseStringBody : Nat → List Char → List Char → Option (String × List Char)
  | 0, _, _ => none
  | Nat.succ fuel, acc, cs =>
    match cs with
    | [] => none
    | c :: rest =>
      if c = quoteChar then some (String.mk acc.reverse, rest)
      else if c = backslashChar then
        match rest with
        | [] => none
        | e :: rest2 =>
          if e = quoteChar then parseStringBody fuel (quoteChar :: acc) rest2
          else if e = backslashChar then parseStringBody fuel (backslashChar :: acc) rest2
          else if e = '/' then parseStringBody fuel ('/' :: acc) rest2
          else if e = 'n' then parseStringBody fuel ('\n' :: acc) rest2
          else if e = 't' then parseStringBody fuel ('\t' :: acc) rest2
          else if e = 'r' then parseStringBody fuel ('\r' :: acc) rest2
          else if e = 'b' then parseStringBody fuel (Char.ofNat 8 :: acc) rest2
          else if e = 'f' then parseStringBody fuel (Char.ofNat 12 :: acc) rest2
          else if e = 'u' then
            match parseHex4 rest2 with
            | some (n, rest3) => parseStringBody fuel (Char.ofNat n :: acc) rest3
            | none => none
          else none
      else if c.toNat < 32 then none
      else parseStringBody fuel (c :: acc) rest

mutual

/-- Model of JavaScript JSON.parse on character lists: one JSON value,
returning the remainder. Fuel-bounded; every fuel decrement accompanies
consumed input, so the generous fuel chosen in Json.parse suffices for
any input. -/
def parseValue : Nat → List Char → Option (Json × List Char)
  | 0, _ => none
  | Nat.succ fuel, cs0 =>
    match skipWs cs0 with
    | [] => none
    | c :: cs =>
      if c = 'n' then (expectChars ['u', 'l', 'l'] cs).map (fun r => (Json.null, r))
      else if c = 't' then (expectChars ['r', 'u', 'e'] cs).map (fun r => (Json.bool true, r))
      else if c = 'f' then (expectChars ['a', 'l', 's', 'e'] cs).map (fun r => (Json.bool false, r))
      else if c = quoteChar then (parseStringBody (Nat.succ fuel) [] cs).map (fun p => (Json.str p.1, p.2))
      else if c = '-' then
        match takeDigits cs with
        | ([], _) => none
        | (ds, r) => some (Json.num (-(digitsToNat 0 ds : Int)), r)
      else if isDigitChar c then
        let (ds, r) := takeDigits cs
        some (Json.num (digitsToNat 0 (c :: ds)), r)
      else if c = '[' then parseArrTail fuel cs
      else if c = lbraceChar then parseObjTail fuel cs
      else none

/-- After an opening bracket: empty array or element list. -/
def parseArrTail : Nat → List Char → Option (Json × List Char)
  | 0, _ => none
  | Nat.succ fuel, cs =>
    match skipWs cs with
    | [] => none
    | c :: r =>
      if c = ']' then some (Json.arr [], r)
      else (parseElems fuel (c :: r)).map (fun p => (Json.arr p.1, p.2))

/-- Comma-separated array elements up to the closing bracket. -/
def parseElems : Nat → List Char → Option (List Json × List Char)
  | 0, _ => none
  | Nat.succ fuel, cs => do
    let (v, r) ← parseValue fuel cs
    match skipWs r with
    | c :: r2 =>
      if c = ',' then (parseElems fuel r2).map (fun p => (v :: p.1, p.2))
      else if c = ']' then some ([v], r2)
      else none
    | [] => none

/-- After an opening brace: empty object or member list. -/
def parseObjTail : Nat → List Char → Option (Json × List Char)
  | 0, _ => none
  | Nat.succ fuel, cs =>
    match skipWs cs with
    | [] => none
    | c :: r =>
      if c = rbraceChar then some (Json.obj [], r)
      else (parseMembers fuel (c :: r)).map (fun p => (Json.obj p.1, p.2))

/-- Comma-separated object members up to the closing brace. -/
def parseMembers : Nat → List Char → Option (List (String × Json) × List Char)
  | 0, _ => none
  | Nat.succ fuel, cs =>
    match skipWs cs with
    | [] => none
    | c :: r =>
      if c = quoteChar then do
        let (k, r2) ← parseStringBody (Nat.succ fuel) [] r
        match skipWs r2 with
        | colon :: r3 =>
          if colon = ':' then do
            let (v, r4) ← parseValue fuel r3
            match skipWs r4 with
            | sep :: r5 =>
              if sep = ',' then (parseMembers fuel r5).map (fun p => ((k, v) :: p.1, p.2))
              else if sep = rbraceChar then some ([(k, v)], r5)
              else none
            | [] => none
          else none
        | [] => none
      else none

end

/-- Model of JavaScript JSON.parse on strings: parse one value and
require only whitespace after it; anything else (and any exception)
is `none`, the model of a thrown SyntaxError. -/
def Json.parse (s : String) : Option Json :=
  match parseValue (4 * s.length + 8) s.toList with
  | some (v, rest) => if skipWs rest = [] then some v else none
  | none => none

example : Json.parse "null" = some Json.null := by rfl
example : Json.parse "x" = none := by rfl
example : Json.parse (Json.stringify (Json.obj [("a", Json.num 1)]))
    = some (Json.obj [("a", Json.num 1)]) := by rfl

/-- Uppercase hexadecimal digit for values below 16. -/
def hexDigitUpper (n : Nat) : Char :=
  if n < 10 then Char.ofNat (48 + n) else Char.ofNat (55 + n)

/-- Characters outside the alphanumerics that ECMAScript encodeURI
leaves unescaped (uriReserved, the uriUnescaped marks, and the hash). -/
def encodeURIUnescapedExtra : List Char :=
  ['-', '_', '.', '!', '~', '*', '(', ')', ';', '/', '?', ':', '@', '&',
   '=', '+', '$', ',', '#', aposChar]

/-- Percent-encoding of one byte, uppercase hex. -/
def percentEncodeByte (b : UInt8) : String :=
  "%" ++ String.mk [hexDigitUpper (b.toNat / 16), hexDigitUpper (b.toNat % 16)]

/-- Model of ECMAScript encodeURI, used by the subscribe transport when
announcing the endpoint (line 81): unreserved and reserved characters
pass through, everything else is UTF-8 percent-encoded. -/
def encodeURI (s : String) : String :=
  String.join (s.toList.map (fun c =>
    if c.isAlphanum || encodeURIUnescapedExtra.contains c then String.singleton c
    else String.join (((String.singleton c).toUTF8.toList).map percentEncodeByte)))

/-- Characters acceptable inside a media-type token; a simplification of
the token character class of the content-type package that agrees with
it on all headers relevant here (it excludes whitespace, separators and
control characters). -/
def isMediaTypeChar (c : Char) : Bool :=
  !(c = ' ' || c = '\t' || c = ';' || c = '=' || c = ',' || c.toNat < 32)

/-- Whitespace test used for header trimming. -/
def isWsChar (c : Char) : Bool :=
  c = ' ' || c = '\t' || c = '\n' || c = '\r'

/-- Whitespace trimming on both ends of a character list. -/
def trimChars (cs : List Char) : List Char :=
  ((cs.dropWhile isWsChar).reverse.dropWhile isWsChar).reverse

/-- ASCII lowercase of one character, as header media types are
lowercased. -/
def charToLower (c : Char) : Char :=
  if 'A' ≤ c && c ≤ 'Z' then Char.ofNat (c.toNat + 32) else c

/-- Split at the unique slash of a media type; `none` when there is no
slash or more than one. -/
def splitOnSlash : List Char → Option (List Char × List Char)
  | [] => none
  | c :: cs =>
    if c = '/' then
      if cs.contains '/' then none else some ([], cs)
    else (splitOnSlash cs).map (fun p => (c :: p.1, p.2))

/-- Model at its interface of the content-type package parse function
as called on line 125: `none` models the TypeError it throws on a
missing or invalid header, `some ty` the lowercased media type of a
valid header (text before the first parameter separator, trimmed).
Parameters such as charset only select the byte decoding of the raw
body, which the embedding represents as an already-decoded string, so
they are not retained. -/
def parseContentTypeHeader : Option String → Option String
  | none => none
  | some h =>
    let t := trimChars (h.toList.takeWhile (fun c => !(c = ';')))
    match splitOnSlash t with
    | some (a, b) =>
        if !a.isEmpty && !b.isEmpty && (a ++ b).all isMediaTypeChar
        then some (String.mk (t.map charToLower)) else none
    | none => none

example : parseContentTypeHeader (some "application/json") = some "application/json" := by rfl
example : parseContentTypeHeader (some "application/json; charset=utf-8")
    = some "application/json" := by rfl
example : parseContentTypeHeader (some "text/plain") = some "text/plain" := by rfl
example : parseContentTypeHeader none = none := by rfl

/-- Lookup of an object field; on duplicate keys the later occurrence
wins, matching JavaScript object construction from JSON text. -/
def lookupField : List (String × Json) → String → Option Json
  | [], _ => none
  | (k, v) :: fs, key =>
    match lookupField fs key with
    | some v2 => some v2
    | none => if k == key then some v else none

/-- Field access on a JSON value; `none` off objects. -/
def Json.getField (j : Json) (key : String) : Option Json :=
  match j with
  | .obj fs => lookupField fs key
  | _ => none

/-- Test that a value is an object carrying `jsonrpc: "2.0"`. -/
def hasJsonrpc2 (j : Json) : Bool :=
  match j.getField "jsonrpc" with
  | some (.str s) => s == "2.0"
  | _ => false

/-- Request-id shape of the MCP schema: string or (integer) number. -/
def isRequestIdJson : Option Json → Bool
  | some (.str _) => true
  | some (.num _) => true
  | _ => false

/-- Optional params field: absent or an object. -/
def isOptionalParamsJson : Option Json → Bool
  | none => true
  | some (.obj _) => true
  | _ => false

/-- Present string field test. -/
def isStringJson : Option Json → Bool
  | some (.str _) => true
  | _ => false

/-- Present object field test. -/
def isObjectJson : Option Json → Bool
  | some (.obj _) => true
  | _ => false

/-- Object shape test. -/
def Json.isObj : Json → Bool
  | .obj _ => true
  | _ => false

/-- Error body of a JSON-RPC error response: object with integer code
and string message. -/
def isErrorBody : Option Json → Bool
  | some e =>
    e.isObj
      && (match e.getField "code" with | some (.num _) => true | _ => false)
      && (match e.getField "message" with | some (.str _) => true | _ => false)
  | none => false

/-- Model at its interface of JSONRPCMessageSchema from the MCP SDK
(a zod union of request, notification, response and error shapes;
unknown keys are stripped, not rejected, so only the required fields
constrain validity). -/
def isJSONRPCMessage (j : Json) : Bool :=
  (j.isObj && hasJsonrpc2 j && isRequestIdJson (j.getField "id")
     && isStringJson (j.getField "method") && isOptionalParamsJson (j.getField "params"))
  || (j.isObj && hasJsonrpc2 j
     && isStringJson (j.getField "method") && isOptionalParamsJson (j.getField "params"))
  || (j.isObj && hasJsonrpc2 j && isRequestIdJson (j.getField "id")
     && isObjectJson (j.getField "result"))
  || (j.isObj && hasJsonrpc2 j && isRequestIdJson (j.getField "id")
     && isErrorBody (j.getField "error"))

/-- Observable effects a transport method performs, in program order:
commands on the redis clients, writes on the HTTP response stream,
console logs, and invocations of the externally installed callbacks. -/
inductive Effect where
  | redisConnect
  | redisDisconnect
  | subClientConnect
  | subscribe (channel : String)
  | unsubscribe (channel : String)
  | subClientDisconnect
  | publish (channel : String) (payload : String)
  | writeHead (status : Nat) (headers : List (String × String))
  | streamWrite (content : String)
  | logDebug (message : String)
  | logError (message : String)
  | invokeOnMessage (m : Json)
  | invokeOnError (e : String)

/-- Broker (redis) operations among the effects. -/
def Effect.isBrokerOp : Effect → Bool
  | .redisConnect => true
  | .redisDisconnect => true
  | .subClientConnect => true
  | .subscribe _ => true
  | .unsubscribe _ => true
  | .subClientDisconnect => true
  | .publish _ _ => true
  | _ => false

/-- Outbound-stream write test. -/
def Effect.isStreamWrite : Effect → Bool
  | .streamWrite _ => true
  | _ => false

/-- Unsubscribe-command test. -/
def Effect.isUnsubscribe : Effect → Bool
  | .unsubscribe _ => true
  | _ => false

/-- Disconnect commands on either redis client. -/
def Effect.isDisconnectOp : Effect → Bool
  | .redisDisconnect => true
  | .subClientDisconnect => true
  | _ => false

/-- Invocation of the externally installed onerror callback. -/
def Effect.isOnErrorCallback : Effect → Bool
  | .invokeOnError _ => true
  | _ => false

/-- State of SSERedisTransportBase: the `_endpoint` string and the
`_isStarted` flag (lines 13-21). The redis client handle itself is
external; its commands appear as effects. -/
structure SSERedisTransportBase where
  endpoint : String
  isStarted : Bool

/-- Constructor of the base class (lines 16-21): stores the endpoint
and sets `_isStarted` to false. -/
def SSERedisTransportBase.init (endpoint : String) : SSERedisTransportBase :=
  ⟨endpoint, false⟩

/-- Error listener installed on the redis client at construction
(line 19): it logs to the console. -/
def redisErrorHandler (err : String) : List Effect :=
  [.logError ("Redis Client Error " ++ err)]

/-- Base start (lines 23-29): connect the redis client unless already
started, then log. -/
def SSERedisTransportBase.start (t : SSERedisTransportBase) :
    SSERedisTransportBase × List Effect :=
  if t.isStarted then (t, [.logDebug "Redis client connected"])
  else ({ t with isStarted := true }, [.redisConnect, .logDebug "Redis client connected"])

/-- Base close (lines 31-37): disconnect the redis client when started,
then log. -/
def SSERedisTransportBase.close (t : SSERedisTransportBase) :
    SSERedisTransportBase × List Effect :=
  if t.isStarted then
    ({ t with isStarted := false }, [.redisDisconnect, .logDebug "Redis client disconnected"])
  else (t, [.logDebug "Redis client disconnected"])

/-- Channel naming shared by both roles through the base class
(lines 39-41): the method reads none of the instance state, so it is
embedded as a function of the session id alone. -/
def getChannelName (sessionId : String) : String :=
  "sse:channel:" ++ sessionId

/-- State of SSESubscribeTransport (lines 48-56): base state, the
`_sessionId` minted at construction, and whether `_subscriberClient`
has been assigned (it is set in start and never cleared). -/
structure SSESubscribeTransport where
  base : SSERedisTransportBase
  sessionId : String
  hasSubscriberClient : Bool

/-- Constructor of the subscribe transport (lines 52-56); the
`sessionId` argument stands for the value randomUUID() returned. -/
def SSESubscribeTransport.init (endpoint sessionId : String) : SSESubscribeTransport :=
  ⟨SSERedisTransportBase.init endpoint, sessionId, false⟩

/-- Accessor getSessionId (lines 100-102). -/
def SSESubscribeTransport.getSessionId (t : SSESubscribeTransport) : String :=
  t.sessionId

/-- Headers written when the event stream is established (lines 76-80). -/
def sseHeaders : List (String × String) :=
  [("Content-Type", "text/event-stream"), ("Cache-Control", "no-cache"),
   ("Connection", "keep-alive")]

/-- Announcement frame written on line 81. -/
def endpointEventFrame (endpoint sessionId : String) : String :=
  "event: endpoint\ndata: " ++ encodeURI endpoint ++ "?sessionId=" ++ sessionId ++ "\n\n"

/-- Framing of one delivered message (lines 71 and 88). -/
def messageEventFrame (payload : String) : String :=
  "data: " ++ payload ++ "\n\n"

/-- Subscription callback registered on lines 68-75: parse the payload
as JSON; on success re-serialize it and write one framed event to the
stream; on failure (the thrown SyntaxError is caught) log and drop. -/
def SSESubscribeTransport.onChannelMessage (message : String) : List Effect :=
  match Json.parse message with
  | some data => [.streamWrite (messageEventFrame (Json.stringify data))]
  | none => [.logError "Error handling SSE message:"]

/-- Broker delivery of a payload sequence to the single subscriber of
the channel: the redis client invokes the subscription callback once
per payload, in arrival order. -/
def deliverAll (messages : List String) : List Effect :=
  (messages.map SSESubscribeTransport.onChannelMessage).flatten

/-- Subscribe-transport start (lines 58-84): base start, duplicate and
connect the dedicated subscriber client, subscribe to the channel named
from the session id, write the stream headers, write the announcement
frame, and return the session id. -/
def SSESubscribeTransport.start (t : SSESubscribeTransport) :
    SSESubscribeTransport × List Effect × String :=
  let p := t.base.start
  let channel := getChannelName t.getSessionId
  ({ t with base := p.1, hasSubscriberClient := true },
   p.2 ++ [.subClientConnect, .logDebug ("Subscribing to channel: " ++ channel),
           .subscribe channel, .writeHead 200 sseHeaders,
           .streamWrite (endpointEventFrame t.base.endpoint t.sessionId)],
   t.sessionId)

/-- Subscribe-transport send (lines 87-89): write one framed event
directly to the stream. -/
def SSESubscribeTransport.send (_t : SSESubscribeTransport) (message : Json) : List Effect :=
  [.streamWrite (messageEventFrame (Json.stringify message))]

/-- Subscribe-transport close (lines 91-98): when `_subscriberClient`
is set (it is never unset), unsubscribe and disconnect it, then run the
base close. -/
def SSESubscribeTransport.close (t : SSESubscribeTransport) :
    SSESubscribeTransport × List Effect :=
  let subEffects :=
    if t.hasSubscriberClient then
      [Effect.unsubscribe (getChannelName t.getSessionId), Effect.subClientDisconnect]
    else []
  let p := SSERedisTransportBase.close t.base
  ({ t with base := p.1 }, subEffects ++ p.2)

/-- State of SSEPublishTransport (lines 106-111): base state plus the
session id supplied at construction. -/
structure SSEPublishTransport where
  base : SSERedisTransportBase
  sessionId : String

/-- Constructor of the publish transport (lines 108-111). -/
def SSEPublishTransport.init (endpoint sessionId : String) : SSEPublishTransport :=
  ⟨SSERedisTransportBase.init endpoint, sessionId⟩

/-- Inbound HTTP request as the transport observes it: the
framework-supplied pre-parsed body if any (a string here; express
leaves it unset when no body parser ran), the Content-Type header, and
the raw body text getRawBody would deliver. -/
structure Request where
  body : Option String
  contentTypeHeader : Option String
  rawBody : String

/-- JavaScript truthiness of the observed body values: absent and the
empty string are falsy. -/
def bodyTruthy : Option String → Bool
  | none => false
  | some s => !(s == "")

/-- Errors handlePostMessage can throw: the content-type TypeError, the
explicit unsupported-content-type Error, the JSON SyntaxError, and the
zod schema error. -/
inductive PostError where
  | invalidContentTypeHeader
  | unsupportedContentType
  | jsonParseError
  | schemaError
  deriving DecidableEq

/-- Inbound body resolution of handlePostMessage (lines 122-130): the
pre-parsed body when truthy; otherwise parse the Content-Type header
(a throw becomes the error case), reject any type other than
application/json, and read the raw body. -/
def decodeBody (req : Request) : Except PostError String :=
  if bodyTruthy req.body then Except.ok (req.body.getD "")
  else
    match parseContentTypeHeader req.contentTypeHeader with
    | none => Except.error PostError.invalidContentTypeHeader
    | some ty =>
      if !(ty == "application/json") then Except.error PostError.unsupportedContentType
      else Except.ok req.rawBody

/-- Model of handlePostMessage (lines 119-138): use the pre-parsed body
when truthy, otherwise require a valid application/json content type
and read the raw body; JSON-parse it, validate it against the message
schema, and pass the result to onmessage. Any error is logged by the
catch block and re-thrown (the Except.error result). -/
def SSEPublishTransport.handlePostMessage (_t : SSEPublishTransport) (req : Request) :
    Except PostError Json × List Effect :=
  match decodeBody req with
  | .error e => (.error e, [.logError "Error in handlePostMessage:"])
  | .ok body =>
    match Json.parse body with
    | none => (.error .jsonParseError, [.logError "Error in handlePostMessage:"])
    | some message =>
      if isJSONRPCMessage message then (.ok message, [.invokeOnMessage message])
      else (.error .schemaError, [.logError "Error in handlePostMessage:"])

/-- Model of publish-transport send (lines 140-148): lazily run start
when `_isStarted` is false, publish the serialized message on the
channel named from the session id, then close. The `publishSucceeds`
argument is the behavior of the external broker: when false the publish
await rejects, the exception propagates out of send, and the trailing
close is never reached. The middle component records whether send
returned normally. -/
def SSEPublishTransport.send (t : SSEPublishTransport) (message : Json)
    (publishSucceeds : Bool) : SSEPublishTransport × Bool × List Effect :=
  let p := if !t.base.isStarted then t.base.start else (t.base, [])
  let channel := getChannelName t.sessionId
  let payload := Json.stringify message
  if publishSucceeds then
    let q := SSERedisTransportBase.close p.1
    (⟨q.1, t.sessionId⟩, true, p.2 ++ [Effect.publish channel payload] ++ q.2)
  else
    (⟨p.1, t.sessionId⟩, false, p.2 ++ [Effect.publish channel payload])

/-- Lifecycle operations an owning process can run on a subscribe
transport. -/
inductive SubscribeOp where
  | start
  | close
  | send (message : Json)

/-- State reached after one lifecycle operation (effects discarded). -/
def applySubscribeOp (t : SSESubscribeTransport) : SubscribeOp → SSESubscribeTransport
  | .start => (t.start).1
  | .close => (t.close).1
  | .send _ => t

/-- State reached after a sequence of lifecycle operations. -/
def applySubscribeOps (t : SSESubscribeTransport) (ops : List SubscribeOp) :
    SSESubscribeTransport :=
  ops.foldl applySubscribeOp t

/-- Disconnect command on the base redis client only. -/
def Effect.isRedisDisconnect : Effect → Bool
  | .redisDisconnect => true
  | _ => false

/-- Valid JSON-RPC request used as a concrete witness message. -/
def pingRequestMsg : Json :=
  Json.obj [("jsonrpc", Json.str "2.0"), ("id", Json.num 1), ("method", Json.str "ping")]

/-- Valid JSON-RPC notification used as a concrete witness message. -/
def initializedNoteMsg : Json :=
  Json.obj [("jsonrpc", Json.str "2.0"), ("method", Json.str "notifications/initialized")]

/-- Unchanged session id under one lifecycle operation. -/
theorem applySubscribeOp_sessionId (t : SSESubscribeTransport) (op : SubscribeOp) :
    (applySubscribeOp t op).sessionId = t.sessionId := by
  cases op <;> rfl

/-- C2: getChannelName is the pure function prepending the fixed
namespace prefix to the session identifier, and the two transport
roles address the broker through it: the subscribe transport
subscribes to exactly that channel on start, and the publish
transport publishes to exactly that channel on send, so both roles
given the same identifier compute the same channel string. -/
theorem channelName_shared (id : String) :
    getChannelName id = "sse:channel:" ++ id
    ∧ (∀ endpoint, Effect.subscribe (getChannelName id)
        ∈ ((SSESubscribeTransport.init endpoint id).start).2.1)
    ∧ (∀ endpoint m ok, Effect.publish (getChannelName id) (Json.stringify m)
        ∈ ((SSEPublishTransport.init endpoint id).send m ok).2.2) := by
  refine ⟨rfl, ?_, ?_⟩
  · intro endpoint
    simp [SSESubscribeTransport.start, SSESubscribeTransport.init,
      SSERedisTransportBase.init, SSERedisTransportBase.start,
      SSESubscribeTransport.getSessionId]
  · intro endpoint m ok
    cases ok <;>
      simp [SSEPublishTransport.send, SSEPublishTransport.init,
        SSERedisTransportBase.init, SSERedisTransportBase.start,
        SSERedisTransportBase.close]

/-- C9: the session identifier of a subscribe transport is fixed at
construction: getSessionId returns the same string after any sequence
of start, send and close operations. -/
theorem sessionId_immutable (t : SSESubscribeTransport) (ops : List SubscribeOp) :
    (applySubscribeOps t ops).getSessionId = t.getSessionId := by
  induction ops generalizing t with
  | nil => rfl
  | cons op ops ih =>
      show (applySubscribeOps (applySubscribeOp t op) ops).getSessionId = _
      rw [ih]
      simp [SSESubscribeTransport.getSessionId, applySubscribeOp_sessionId]

/-- C6: every start of a subscribe transport writes exactly one event
to the outbound stream, namely the announcement frame
`event: endpoint\ndata: <uri-encoded endpoint>?sessionId=<minted id>\n\n`,
and that write immediately follows the response-header write. -/
theorem announcement_on_start (t : SSESubscribeTransport) :
    ((t.start).2.1).countP Effect.isStreamWrite = 1
    ∧ endpointEventFrame t.base.endpoint t.sessionId
        = "event: endpoint\ndata: " ++ encodeURI t.base.endpoint
          ++ "?sessionId=" ++ t.sessionId ++ "\n\n"
    ∧ ∃ pre, (t.start).2.1
        = pre ++ [Effect.writeHead 200 sseHeaders,
                  Effect.streamWrite (endpointEventFrame t.base.endpoint t.sessionId)] := by
  refine ⟨?_, rfl, ?_⟩
  · by_cases h : t.base.isStarted <;>
      simp [SSESubscribeTransport.start, SSERedisTransportBase.start, h,
        Effect.isStreamWrite, List.countP_cons, List.countP_append]
  · by_cases h : t.base.isStarted
    · refine ⟨[Effect.logDebug "Redis client connected", Effect.subClientConnect,
        Effect.logDebug ("Subscribing to channel: " ++ getChannelName t.sessionId),
        Effect.subscribe (getChannelName t.sessionId)], ?_⟩
      simp [SSESubscribeTransport.start, SSERedisTransportBase.start, h,
        SSESubscribeTransport.getSessionId]
    · refine ⟨[Effect.redisConnect, Effect.logDebug "Redis client connected",
        Effect.subClientConnect,
        Effect.logDebug ("Subscribing to channel: " ++ getChannelName t.sessionId),
        Effect.subscribe (getChannelName t.sessionId)], ?_⟩
      simp [SSESubscribeTransport.start, SSERedisTransportBase.start, h,
        SSESubscribeTransport.getSessionId]

/-- C8 counterexample: at the concrete broker failure "boom", the
listener the transport installs on its redis client performs no
invocation of the onerror callback, refuting the claim that every
broker-level failure is surfaced through onerror. -/
theorem broker_error_no_onerror_callback :
    ¬(1 ≤ (redisErrorHandler "boom").countP Effect.isOnErrorCallback) := by
  decide

/-- C8 amended: on a broker-level failure the error listener installed
at construction only logs the error to the console; the onerror
callback field exists but is never invoked by the transport. -/
theorem redis_error_handler_logs_only (err : String) :
    redisErrorHandler err = [Effect.logError ("Redis Client Error " ++ err)]
    ∧ (redisErrorHandler err).countP Effect.isOnErrorCallback = 0 :=
  ⟨rfl, rfl⟩

/-- C5 counterexample: on the concrete transport with session id "abc",
the second close after a completed close performs another unsubscribe
and another disconnect (the subscriber client handle is never cleared),
refuting the claimed absence of additional teardown operations. -/
theorem second_close_repeats_teardown :
    ¬(((((SSESubscribeTransport.init "/messages" "abc").start).1.close).1.close).2.countP
          Effect.isUnsubscribe = 0
      ∧ ((((SSESubscribeTransport.init "/messages" "abc").start).1.close).1.close).2.countP
          Effect.isDisconnectOp = 0) := by
  decide

/-- C5 amended: a second close after a completed close runs without
error and performs no additional base-client disconnect (the base
close is guarded by the started flag), but it repeats the channel
unsubscribe and the subscriber-client disconnect whenever the
subscriber client was ever assigned, because close never clears that
handle. -/
theorem close_second_time_contract (t : SSESubscribeTransport) :
    ((t.close).1.close).2
      = (if t.hasSubscriberClient then
          [Effect.unsubscribe (getChannelName t.sessionId), Effect.subClientDisconnect]
        else []) ++ [Effect.logDebug "Redis client disconnected"]
    ∧ ((t.close).1.close).2.countP Effect.isRedisDisconnect = 0 := by
  by_cases h1 : t.hasSubscriberClient <;> by_cases h2 : t.base.isStarted <;>
    simp [SSESubscribeTransport.close, SSERedisTransportBase.close, h1, h2,
      SSESubscribeTransport.getSessionId, Effect.isRedisDisconnect,
      List.countP_cons, List.countP_append]

/-- C3 counterexample: on the concrete fresh publish transport with
session id "abc", a send whose publish raises performs no disconnect
at all, refuting the claim that the connection is closed on the error
path as well. -/
theorem pub_send_error_skips_close :
    ¬(1 ≤ ((((SSEPublishTransport.init "/messages" "abc").send Json.null false).2.2).countP
          Effect.isDisconnectOp)) := by
  decide

/-- C3 amended: send lazily connects when not already started and
publishes the serialized message to the channel named from the session
identifier supplied at construction; after a successful publish it
closes the connection, but when the publish raises, the error
propagates out of send before the close runs and the connection is
left open. -/
theorem pub_send_contract (t : SSEPublishTransport) (m : Json) :
    (t.send m true).2.2
      = (if t.base.isStarted then []
         else [Effect.redisConnect, Effect.logDebug "Redis client connected"])
        ++ [Effect.publish (getChannelName t.sessionId) (Json.stringify m),
            Effect.redisDisconnect, Effect.logDebug "Redis client disconnected"]
    ∧ (t.send m true).1.base.isStarted = false
    ∧ (t.send m false).2.2
      = (if t.base.isStarted then []
         else [Effect.redisConnect, Effect.logDebug "Redis client connected"])
        ++ [Effect.publish (getChannelName t.sessionId) (Json.stringify m)]
    ∧ (t.send m false).1.base.isStarted = true
    ∧ (t.send m false).2.1 = false := by
  by_cases h : t.base.isStarted <;>
    simp [SSEPublishTransport.send, SSERedisTransportBase.start,
      SSERedisTransportBase.close, h]

/-- Absence of broker commands anywhere in handlePostMessage, on the
success path and on every error path. -/
theorem handlePostMessage_no_broker_ops (t : SSEPublishTransport) (req : Request) :
    ((t.handlePostMessage req).2).countP Effect.isBrokerOp = 0 := by
  rcases hdec : decodeBody req with e | body <;>
    simp only [SSEPublishTransport.handlePostMessage, hdec]
  · rfl
  · rcases hp : Json.parse body with _ | j <;> simp only
    · rfl
    · by_cases hj : isJSONRPCMessage j <;> simp [hj, Effect.isBrokerOp]

/-- Error paths of handlePostMessage log and re-throw. -/
theorem handlePostMessage_error_logged (t : SSEPublishTransport) (req : Request)
    (e : PostError) (he : (t.handlePostMessage req).1 = Except.error e) :
    (t.handlePostMessage req).2 = [Effect.logError "Error in handlePostMessage:"] := by
  rcases hdec : decodeBody req with e2 | body
  · simp [SSEPublishTransport.handlePostMessage, hdec]
  · rcases hp : Json.parse body with _ | j
    · simp [SSEPublishTransport.handlePostMessage, hdec, hp]
    · by_cases hj : isJSONRPCMessage j
      · exact absurd he (by simp [SSEPublishTransport.handlePostMessage, hdec, hp, hj])
      · simp [SSEPublishTransport.handlePostMessage, hdec, hp, hj]

/-- C4: on a request whose body the transport must read itself, a
missing or invalid Content-Type header, a non-application/json media
type, a body that is not JSON, or a parsed document failing the
message schema each produce a decode error that is re-thrown after
logging, and no broker command occurs in handlePostMessage on any
path. -/
theorem handlePostMessage_decode_errors (t : SSEPublishTransport) (req : Request)
    (hb : bodyTruthy req.body = false) :
    ((t.handlePostMessage req).2).countP Effect.isBrokerOp = 0
    ∧ (parseContentTypeHeader req.contentTypeHeader = none →
        (t.handlePostMessage req).1 = Except.error PostError.invalidContentTypeHeader)
    ∧ (∀ ty, parseContentTypeHeader req.contentTypeHeader = some ty →
        ty ≠ "application/json" →
        (t.handlePostMessage req).1 = Except.error PostError.unsupportedContentType)
    ∧ (parseContentTypeHeader req.contentTypeHeader = some "application/json" →
        Json.parse req.rawBody = none →
        (t.handlePostMessage req).1 = Except.error PostError.jsonParseError)
    ∧ (∀ j, parseContentTypeHeader req.contentTypeHeader = some "application/json" →
        Json.parse req.rawBody = some j → isJSONRPCMessage j = false →
        (t.handlePostMessage req).1 = Except.error PostError.schemaError)
    ∧ (∀ e, (t.handlePostMessage req).1 = Except.error e →
        (t.handlePostMessage req).2 = [Effect.logError "Error in handlePostMessage:"]) := by
  refine ⟨handlePostMessage_no_broker_ops t req, ?_, ?_, ?_, ?_,
    fun e he => handlePostMessage_error_logged t req e he⟩
  · intro hct
    have hdec : decodeBody req = Except.error PostError.invalidContentTypeHeader := by
      simp [decodeBody, hb, hct]
    simp [SSEPublishTransport.handlePostMessage, hdec]
  · intro ty hct hne
    have hbeq : (ty == "application/json") = false := by
      simpa using hne
    have hdec : decodeBody req = Except.error PostError.unsupportedContentType := by
      simp [decodeBody, hb, hct, hbeq]
    simp [SSEPublishTransport.handlePostMessage, hdec]
  · intro hct hp
    have hdec : decodeBody req = Except.ok req.rawBody := by
      simp [decodeBody, hb, hct]
    simp [SSEPublishTransport.handlePostMessage, hdec, hp]
  · intro j hct hp hj
    have hdec : decodeBody req = Except.ok req.rawBody := by
      simp [decodeBody, hb, hct]
    simp [SSEPublishTransport.handlePostMessage, hdec, hp, hj]

/-- C4 witness: the concrete text/plain request without a pre-parsed
body is rejected with the unsupported-content-type decode error. -/
theorem handlePostMessage_decode_errors_witness :
    bodyTruthy (none : Option String) = false
    ∧ ((SSEPublishTransport.init "/messages" "abc").handlePostMessage
        ⟨none, some "text/plain", "x"⟩).1
      = Except.error PostError.unsupportedContentType := by
  refine ⟨by decide, ?_⟩
  have h := handlePostMessage_decode_errors (SSEPublishTransport.init "/messages" "abc")
    ⟨none, some "text/plain", "x"⟩ (by decide)
  exact h.2.2.1 "text/plain" (by rfl) (by decide)

/-- C10: on a request whose body the framework already populated with
a truthy value, handlePostMessage never consults the Content-Type
header (the result is identical under any two headers, including an
absent one), and only JSON parsing and schema validation can still
reject the request: a parse failure or schema failure yields the
corresponding decode error, and otherwise the message is accepted and
handed to onmessage. -/
theorem handlePostMessage_preparsed (t : SSEPublishTransport) (req : Request) (s : String)
    (hb : req.body = some s) (hs : s ≠ "") :
    (∀ h1 h2, t.handlePostMessage { req with contentTypeHeader := h1 }
        = t.handlePostMessage { req with contentTypeHeader := h2 })
    ∧ (Json.parse s = none →
        (t.handlePostMessage req).1 = Except.error PostError.jsonParseError)
    ∧ (∀ j, Json.parse s = some j → isJSONRPCMessage j = true →
        (t.handlePostMessage req).1 = Except.ok j
        ∧ (t.handlePostMessage req).2 = [Effect.invokeOnMessage j])
    ∧ (∀ j, Json.parse s = some j → isJSONRPCMessage j = false →
        (t.handlePostMessage req).1 = Except.error PostError.schemaError) := by
  have hdec : decodeBody req = Except.ok s := by
    unfold decodeBody
    rw [hb]
    simp [bodyTruthy, hs]
  refine ⟨?_, ?_, ?_, ?_⟩
  · intro h1 h2
    have k : ∀ hh, t.handlePostMessage { req with contentTypeHeader := hh }
        = t.handlePostMessage req := by
      intro hh
      have hdec2 : decodeBody { req with contentTypeHeader := hh } = Except.ok s := by
        unfold decodeBody
        show (if bodyTruthy req.body then Except.ok (req.body.getD "") else _) = _
        rw [hb]
        simp [bodyTruthy, hs]
      simp [SSEPublishTransport.handlePostMessage, hdec, hdec2]
    rw [k h1, k h2]
  · intro hp
    simp [SSEPublishTransport.handlePostMessage, hdec, hp]
  · intro j hp hj
    simp [SSEPublishTransport.handlePostMessage, hdec, hp, hj]
  · intro j hp hj
    simp [SSEPublishTransport.handlePostMessage, hdec, hp, hj]

/-- C10 witness: the concrete request whose pre-parsed body is the
string "1" under a text/plain header is not rejected for its content
type; it reaches schema validation, which rejects the number 1. -/
theorem handlePostMessage_preparsed_witness :
    (some "1" : Option String) = some "1"
    ∧ "1" ≠ ""
    ∧ ((SSEPublishTransport.init "/messages" "abc").handlePostMessage
        ⟨some "1", some "text/plain", ""⟩).1
      = Except.error PostError.schemaError := by
  refine ⟨rfl, by decide, ?_⟩
  have h := handlePostMessage_preparsed (SSEPublishTransport.init "/messages" "abc")
    ⟨some "1", some "text/plain", ""⟩ "1" rfl (by decide)
  exact h.2.2.2 (Json.num 1) (by rfl) (by rfl)

/-- Ordered delivery: the broker hands a payload sequence to the
single subscriber callback in order, and every payload that
round-trips through the JSON codec is written as one framed event in
that same order. -/
theorem deliverAll_ordered (ms : List Json)
    (hms : ∀ x ∈ ms, Json.parse (Json.stringify x) = some x) :
    deliverAll (ms.map Json.stringify)
      = ms.map (fun x => Effect.streamWrite (messageEventFrame (Json.stringify x))) := by
  induction ms with
  | nil => rfl
  | cons x xs ih =>
      have hx : Json.parse (Json.stringify x) = some x := hms x (by simp)
      have hxs : ∀ y ∈ xs, Json.parse (Json.stringify y) = some y :=
        fun y hy => hms y (List.mem_cons_of_mem x hy)
      simp only [List.map_cons, deliverAll, List.flatten_cons,
        SSESubscribeTransport.onChannelMessage, hx]
      simpa [deliverAll] using ih hxs

/-- C1: a structured message m published while the transport is
subscribed reaches the subscription callback as its serialization;
the callback parses it back and writes exactly one framed event whose
payload is the serialization of m itself (deep-equal to m, by the
round-trip hypothesis), and a sequence of such payloads delivered on
the channel is written to the stream as one frame each, in delivery
order, with nothing lost or duplicated. -/
theorem roundtrip_delivery (m : Json) (_hm : isJSONRPCMessage m = true)
    (hrt : Json.parse (Json.stringify m) = some m)
    (ms : List Json) (hms : ∀ x ∈ ms, Json.parse (Json.stringify x) = some x) :
    SSESubscribeTransport.onChannelMessage (Json.stringify m)
      = [Effect.streamWrite (messageEventFrame (Json.stringify m))]
    ∧ deliverAll (ms.map Json.stringify)
      = ms.map (fun x => Effect.streamWrite (messageEventFrame (Json.stringify x))) := by
  constructor
  · simp [SSESubscribeTransport.onChannelMessage, hrt]
  · exact deliverAll_ordered ms hms

/-- C1 witness: the ping request round-trips through the codec and is
delivered as exactly one framed event; the concrete two-message
sequence is delivered in order. -/
theorem roundtrip_delivery_witness :
    isJSONRPCMessage pingRequestMsg = true
    ∧ Json.parse (Json.stringify pingRequestMsg) = some pingRequestMsg
    ∧ (∀ x ∈ [pingRequestMsg, initializedNoteMsg],
        Json.parse (Json.stringify x) = some x)
    ∧ SSESubscribeTransport.onChannelMessage (Json.stringify pingRequestMsg)
        = [Effect.streamWrite (messageEventFrame (Json.stringify pingRequestMsg))]
    ∧ deliverAll ([pingRequestMsg, initializedNoteMsg].map Json.stringify)
        = [pingRequestMsg, initializedNoteMsg].map
            (fun x => Effect.streamWrite (messageEventFrame (Json.stringify x))) := by
  have hmem : ∀ x ∈ [pingRequestMsg, initializedNoteMsg],
      Json.parse (Json.stringify x) = some x := by
    intro x hx
    simp only [List.mem_cons, List.not_mem_nil, or_false] at hx
    rcases hx with rfl | rfl
    · rfl
    · rfl
  have h := roundtrip_delivery pingRequestMsg (by rfl) (by rfl)
    [pingRequestMsg, initializedNoteMsg] hmem
  exact ⟨by rfl, by rfl, hmem, h.1, h.2⟩

/-- C7: a channel payload that does not parse as JSON is logged and
dropped by the subscription callback: no stream write and no broker
command occur for it, and delivery of later payloads is unaffected,
so a following well-formed payload is still written as its framed
event. -/
theorem malformed_payload_dropped (s : String) (hbad : Json.parse s = none) :
    SSESubscribeTransport.onChannelMessage s
      = [Effect.logError "Error handling SSE message:"]
    ∧ (SSESubscribeTransport.onChannelMessage s).countP Effect.isStreamWrite = 0
    ∧ (SSESubscribeTransport.onChannelMessage s).countP Effect.isBrokerOp = 0
    ∧ (∀ rest, deliverAll (s :: rest)
        = Effect.logError "Error handling SSE message:" :: deliverAll rest)
    ∧ (∀ g d, Json.parse g = some d →
        deliverAll [s, g]
          = [Effect.logError "Error handling SSE message:",
             Effect.streamWrite (messageEventFrame (Json.stringify d))]) := by
  have hcb : SSESubscribeTransport.onChannelMessage s
      = [Effect.logError "Error handling SSE message:"] := by
    simp [SSESubscribeTransport.onChannelMessage, hbad]
  refine ⟨hcb, by simp [hcb, Effect.isStreamWrite], by simp [hcb, Effect.isBrokerOp],
    ?_, ?_⟩
  · intro rest
    simp [deliverAll, hcb]
  · intro g d hg
    simp [deliverAll, SSESubscribeTransport.onChannelMessage, hbad, hg]

/-- C7 witness: the concrete malformed payload "x" is logged and
dropped, and the following well-formed payload "1" is still written. -/
theorem malformed_payload_dropped_witness :
    Json.parse "x" = none
    ∧ SSESubscribeTransport.onChannelMessage "x"
        = [Effect.logError "Error handling SSE message:"]
    ∧ deliverAll ["x", "1"]
        = [Effect.logError "Error handling SSE message:",
           Effect.streamWrite (messageEventFrame (Json.stringify (Json.num 1)))] := by
  have h := malformed_payload_dropped "x" (by rfl)
  exact ⟨by rfl, h.1, h.2.2.2.2 "1" (Json.num 1) (by rfl)⟩
